import Mathlib

/-!
Shallow embedding of the workflow state model, reducers, validators and
approval protocol of the langgraph-bootcamp repository.

Sources embedded:
- src/utils/state.py      (approval state, add_pending_action,
                           record_approval_decision, assess_risk_level)
- src/state/schemas.py    (entity records and the custom reducers
                           merge_user_profile, update_tasks_dict,
                           append_to_processing_log, merge_workflow_metadata)
- src/state/validators.py (WorkflowValidator.validate and the per-kind rules)
- src/tools/approval_tools.py (risk line of transfer_money_with_approval)

Modelling conventions:
- Python dict values become Lean structures; `Dict[str, T]` becomes an
  association list `List (String × T)` with Python dict semantics
  (insertion order, update-in-place for an existing key, append otherwise).
- Python truthiness on strings, ints and optionals is modelled by the
  pyOr* helpers below (`x or y` keeps x unless x is falsy: empty string,
  zero, or None).
- `datetime.now().isoformat()` is modelled by an explicit `now : String`
  parameter, so every function is deterministic and executable.
- Numeric hour fields typed `float` in the source are modelled as `Int`;
  the reducers only test their truthiness, never do float arithmetic.
- A function that raises is modelled with `Except String` (the message is
  the exception text); validator rules raise `StateValidationError` and are
  modelled as total functions returning `Option String` (the violation
  message, `none` when the rule passes).
-/

/-- Python `x or y` on strings: empty string is falsy. -/
def pyOrStr (x y : String) : String :=
  if x = "" then y else x

/-- Python `x or y` on ints: zero is falsy. -/
def pyOrInt (x y : Int) : Int :=
  if x = 0 then y else x

/-- Python `x or y` on optional strings: None and the empty string are falsy. -/
def pyOrOptStr (x y : Option String) : Option String :=
  match x with
  | none => y
  | some s => if s = "" then y else some s

/-- Python `x or y` on optional ints: None and zero are falsy. -/
def pyOrOptInt (x y : Option Int) : Option Int :=
  match x with
  | none => y
  | some n => if n = 0 then y else some n

/-- Character-list version of Python `str.startswith`. -/
def charsStartWith : List Char → List Char → Bool
  | [], _ => true
  | _ :: _, [] => false
  | a :: as, b :: bs => a == b && charsStartWith as bs

/-- Character-list version of Python `needle in hay` on strings. -/
def charsContain (needle : List Char) : List Char → Bool
  | [] => charsStartWith needle []
  | b :: bs => charsStartWith needle (b :: bs) || charsContain needle bs

/-- Python `needle in hay` for strings (substring test). -/
def containsSubstr (needle hay : String) : Bool :=
  charsContain needle.data hay.data

/-- Python `str.endswith`. -/
def strEndsWith (s suffix : String) : Bool :=
  suffix.data.isSuffixOf s.data

/-! ## utils/state.py: approval state and protocol helpers -/

/-- An action dict built by the approval tools (src/tools/approval_tools.py):
keys `type`, `amount`, `recipient`, `purpose`, `risk_level`, each optional
because plain Python dicts may omit them.  `type` is read with
`action.get("type", "unknown")` in add_pending_action. -/
structure PendingAction where
  type : Option String := none
  amount : Option Int := none
  recipient : Option String := none
  purpose : Option String := none
  risk_level : Option String := none
  deriving Repr, DecidableEq

/-- An approval record as built by record_approval_decision
(src/utils/state.py lines 88-94).  The source literally stores the string
"now" as the timestamp. -/
structure ApprovalRecord where
  action : PendingAction
  approved : Bool
  timestamp : String
  notes : String
  approver : String
  deriving Repr, DecidableEq

/-- ApprovalState (src/utils/state.py lines 13-33).  Messages are irrelevant to
every function under verification and are modelled as strings. -/
structure ApprovalState where
  messages : List String := []
  pending_action : Option PendingAction := none
  approval_history : List ApprovalRecord := []
  workflow_status : String := "active"
  current_step : String := "initial"
  user_id : Option String := none
  risk_level : String := "low"
  deriving Repr, DecidableEq

/-- create_initial_state (src/utils/state.py lines 35-53). -/
def create_initial_state (user_id : String := "default_user") : ApprovalState :=
  { messages := []
    pending_action := none
    approval_history := []
    workflow_status := "active"
    current_step := "initial"
    user_id := some user_id
    risk_level := "low" }

/-- The fragment of state returned as the update by add_pending_action. -/
structure PendingUpdate where
  pending_action : Option PendingAction
  workflow_status : String
  current_step : String
  deriving Repr, DecidableEq

/-- add_pending_action (src/utils/state.py lines 55-70).  The source builds
the update dict unconditionally; it never inspects the state it is given. -/
def add_pending_action (_state : ApprovalState) (action : PendingAction) : PendingUpdate :=
  { pending_action := some action
    workflow_status := "waiting_approval"
    current_step := "approval_required_" ++ action.type.getD "unknown" }

/-- The fragment of state returned as the update by record_approval_decision. -/
structure DecisionUpdate where
  approval_history : List ApprovalRecord
  pending_action : Option PendingAction
  workflow_status : String
  current_step : String
  deriving Repr, DecidableEq

/-- record_approval_decision (src/utils/state.py lines 72-104).  Raising
`ValueError("No pending action to approve")` is modelled as `Except.error`.
`state.get("user_id", "unknown")` is modelled by `Option.getD`, reading
`none` as the absent key. -/
def record_approval_decision (state : ApprovalState) (approved : Bool)
    (notes : String := "") : Except String DecisionUpdate :=
  match state.pending_action with
  | none => .error "No pending action to approve"
  | some pa =>
    .ok { approval_history := state.approval_history ++
            [{ action := pa
               approved := approved
               timestamp := "now"
               notes := notes
               approver := state.user_id.getD "unknown" }]
          pending_action := none
          workflow_status := if approved then "active" else "blocked"
          current_step := if approved then "approved" else "rejected" }

/-- The fixed high-risk action kinds (src/utils/state.py line 112). -/
def high_risk_actions : List String :=
  ["send_email", "transfer_money", "delete_data", "publish_content"]

/-- The fixed medium-risk action kinds (src/utils/state.py line 113). -/
def medium_risk_actions : List String :=
  ["schedule_meeting", "create_document", "update_profile"]

/-- The parameter dict passed to assess_risk_level; the function only reads
the keys `amount` and `recipient`. -/
structure ActionParams where
  amount : Option Int := none
  recipient : Option String := none
  deriving Repr, DecidableEq

/-- assess_risk_level (src/utils/state.py lines 107-125). -/
def assess_risk_level (action_type : String) (parameters : ActionParams) : String :=
  if high_risk_actions.contains action_type then
    if (match parameters.amount with | some a => decide (1000 < a) | none => false) then "high"
    else if (match parameters.recipient with
             | some r => containsSubstr "external" r
             | none => false) then "high"
    else "medium"
  else if medium_risk_actions.contains action_type then "medium"
  else "low"

/-- The inline risk line of transfer_money_with_approval
(src/tools/approval_tools.py line 123): `"high" if amount > 1000 else "medium"`. -/
def transfer_money_risk (amount : Int) : String :=
  if 1000 < amount then "high" else "medium"

/-! ## state/schemas.py: entity records, dict helpers and reducers -/

/-- TaskStatus enum (src/state/schemas.py lines 35-41). -/
inductive TaskStatus
  | todo
  | in_progress
  | blocked
  | review
  | done
  deriving Repr, DecidableEq

/-- Priority enum (src/state/schemas.py lines 28-33). -/
inductive Priority
  | low
  | medium
  | high
  | critical
  deriving Repr, DecidableEq

/-- WorkflowStatus enum (src/state/schemas.py lines 19-26). -/
inductive WorkflowStatus
  | pending
  | in_progress
  | waiting_approval
  | completed
  | failed
  | cancelled
  deriving Repr, DecidableEq

/-- UserProfile (src/state/schemas.py lines 47-55).  Preference values are
never inspected by the merge logic and modelled as strings. -/
structure UserProfile where
  name : String
  email : String
  role : String
  permissions : List String := []
  preferences : List (String × String) := []
  created_at : String := ""
  deriving Repr, DecidableEq

/-- TaskInfo (src/state/schemas.py lines 57-72).  Hours are floats in the
source; the reducer only tests their truthiness, so Int is a faithful model. -/
structure TaskInfo where
  id : String
  title : String
  description : String
  status : TaskStatus
  priority : Priority
  assignee : Option String := none
  dependencies : List String := []
  estimated_hours : Option Int := none
  actual_hours : Option Int := none
  due_date : Option String := none
  created_at : String := ""
  updated_at : String := ""
  metadata : List (String × String) := []
  deriving Repr, DecidableEq

/-- DocumentInfo (src/state/schemas.py lines 74-86).  The trailing dict and
list bookkeeping fields (validation_results, extracted_data, error_messages,
metadata) are never read by any embedded function and are omitted. -/
structure DocumentInfo where
  id : String
  filename : String
  file_type : String
  size_bytes : Int
  upload_time : String := ""
  processing_stage : String := ""
  deriving Repr, DecidableEq

/-- WorkflowMetadata (src/state/schemas.py lines 88-100). -/
structure WorkflowMetadata where
  workflow_id : String
  workflow_type : String
  started_at : String
  updated_at : String
  current_step : String
  total_steps : Int
  completed_steps : Int
  error_count : Int := 0
  retry_count : Int := 0
  timeout_at : Option String := none
  deriving Repr, DecidableEq

/-- Lookup in a Python-dict association list (`d[k]` / `k in d`). -/
def dictGet : List (String × α) → String → Option α
  | [], _ => none
  | (k', v) :: rest, k => if k' = k then some v else dictGet rest k

/-- Python `d[k] = v`: replace the value at the first occurrence of `k`,
append the pair when the key is absent. -/
def dictSet : List (String × α) → String → α → List (String × α)
  | [], k, v => [(k, v)]
  | (k', v') :: rest, k, v =>
    if k' = k then (k', v) :: rest else (k', v') :: dictSet rest k v

/-- Python `{**a, **b}`: start from `a` and write each pair of `b` in order. -/
def pyDictMerge (a b : List (String × α)) : List (String × α) :=
  b.foldl (fun acc kv =>
    match dictGet acc kv.1 with
    | some _ => dictSet acc kv.1 kv.2
    | none => acc ++ [kv]) a

/-- Python `list(set(l))` for strings, modelled as first-occurrence
deduplication (the source only relies on the set semantics, not the
iteration order of the hash set). -/
def pySetList : List String → List String
  | [] => []
  | x :: xs => x :: pySetList (xs.filter (fun y => y ≠ x))
termination_by l => l.length
decreasing_by
  simp only [List.length_cons]
  exact Nat.lt_succ_of_le (List.length_filter_le _ _)

/-- merge_user_profile (src/state/schemas.py lines 106-125).  A dataclass
instance is always truthy, so `if not existing` is exactly the None test. -/
def merge_user_profile : Option UserProfile → Option UserProfile → Option UserProfile
  | none, new => new
  | some existing, none => some existing
  | some existing, some new =>
    some { name := pyOrStr new.name existing.name
           email := pyOrStr new.email existing.email
           role := pyOrStr new.role existing.role
           permissions := pySetList (existing.permissions ++ new.permissions)
           preferences := pyDictMerge existing.preferences new.preferences
           created_at := existing.created_at }

/-- The per-task merge performed inside the loop of update_tasks_dict
(src/state/schemas.py lines 143-158): the TaskInfo(...) constructor call. -/
def mergeTaskInfo (now : String) (existing_task new_task : TaskInfo) : TaskInfo :=
  { id := new_task.id
    title := pyOrStr new_task.title existing_task.title
    description := pyOrStr new_task.description existing_task.description
    status := if new_task.status ≠ TaskStatus.todo then new_task.status else existing_task.status
    priority := if new_task.priority ≠ Priority.low then new_task.priority else existing_task.priority
    assignee := pyOrOptStr new_task.assignee existing_task.assignee
    dependencies := pySetList (existing_task.dependencies ++ new_task.dependencies)
    estimated_hours := pyOrOptInt new_task.estimated_hours existing_task.estimated_hours
    actual_hours := pyOrOptInt new_task.actual_hours existing_task.actual_hours
    due_date := pyOrOptStr new_task.due_date existing_task.due_date
    created_at := existing_task.created_at
    updated_at := now
    metadata := pyDictMerge existing_task.metadata new_task.metadata }

/-- The `for task_id, new_task in new.items()` loop of update_tasks_dict
(src/state/schemas.py lines 140-162), threading the mutated `updated` dict. -/
def updateTasksLoop (now : String) : List (String × TaskInfo) → List (String × TaskInfo) → List (String × TaskInfo)
  | acc, [] => acc
  | acc, (task_id, new_task) :: rest =>
    match dictGet acc task_id with
    | some existing_task =>
      updateTasksLoop now (dictSet acc task_id (mergeTaskInfo now existing_task new_task)) rest
    | none => updateTasksLoop now (acc ++ [(task_id, new_task)]) rest

/-- update_tasks_dict (src/state/schemas.py lines 127-164).  An empty dict is
falsy, so `if not existing: return new or {}` returns `new` (both are the
empty dict when `new` is falsy). -/
def update_tasks_dict (now : String) (existing new : List (String × TaskInfo)) : List (String × TaskInfo) :=
  if existing = [] then new
  else if new = [] then existing
  else updateTasksLoop now existing new

/-- append_to_processing_log (src/state/schemas.py lines 166-178).  The
`f"[{timestamp}] {entry}"` stamp uses the explicit `now` parameter. -/
def append_to_processing_log (now : String) (existing new : List String) : List String :=
  if new = [] then existing
  else existing ++ new.map (fun entry => "[" ++ now ++ "] " ++ entry)

/-- merge_workflow_metadata (src/state/schemas.py lines 180-201). -/
def merge_workflow_metadata (now : String) : Option WorkflowMetadata → Option WorkflowMetadata → Option WorkflowMetadata
  | none, new => new
  | some existing, none => some existing
  | some existing, some new =>
    some { workflow_id := existing.workflow_id
           workflow_type := existing.workflow_type
           started_at := existing.started_at
           updated_at := now
           current_step := pyOrStr new.current_step existing.current_step
           total_steps := pyOrInt new.total_steps existing.total_steps
           completed_steps := max existing.completed_steps (pyOrInt new.completed_steps 0)
           error_count := existing.error_count + pyOrInt new.error_count 0
           retry_count := existing.retry_count + pyOrInt new.retry_count 0
           timeout_at := pyOrOptStr new.timeout_at existing.timeout_at }

/-! ## state/validators.py: rule engine and per-kind rules -/

/-- The dict returned by WorkflowValidator.validate (src/state/validators.py
lines 50-54). -/
structure ValidationResult where
  valid : Bool
  errors : List String
  validated_at : String
  deriving Repr, DecidableEq

/-- The `for rule_name, rule_func in self.validation_rules.items()` loop of
WorkflowValidator.validate (src/state/validators.py lines 42-46): a failing
rule appends `f"{rule_name}: {message}"` and the loop continues with the
remaining rules. -/
def runValidationRules {σ : Type} (s : σ) : List (String × (σ → Option String)) → List String
  | [] => []
  | (rule_name, rule_func) :: rest =>
    match rule_func s with
    | some msg => (rule_name ++ ": " ++ msg) :: runValidationRules s rest
    | none => runValidationRules s rest

/-- WorkflowValidator.validate (src/state/validators.py lines 31-54).  A rule
raising StateValidationError is a rule returning `some message`; the returned
dict is total — nothing propagates to the caller. -/
def WorkflowValidator.validate {σ : Type} (validation_rules : List (String × (σ → Option String)))
    (now : String) (s : σ) : ValidationResult :=
  let errors := runValidationRules s validation_rules
  { valid := errors.isEmpty
    errors := errors
    validated_at := now }

/-- DocumentProcessingState (src/state/schemas.py lines 207-232), restricted
to the fields the document validator reads.  Error-list entries are dicts in
the source; only their count is ever used, so they are modelled as strings. -/
structure DocumentProcessingState where
  current_document : Option DocumentInfo := none
  workflow_metadata : Option WorkflowMetadata := none
  processing_log : List String := []
  overall_status : WorkflowStatus := .pending
  current_step : String := ""
  errors : List String := []
  deriving Repr, DecidableEq

/-- Python `str(status)` on the WorkflowStatus enum. -/
def workflowStatusStr : WorkflowStatus → String
  | .pending => "WorkflowStatus.PENDING"
  | .in_progress => "WorkflowStatus.IN_PROGRESS"
  | .waiting_approval => "WorkflowStatus.WAITING_APPROVAL"
  | .completed => "WorkflowStatus.COMPLETED"
  | .failed => "WorkflowStatus.FAILED"
  | .cancelled => "WorkflowStatus.CANCELLED"

/-- DocumentProcessingValidator._validate_workflow_metadata
(src/state/validators.py lines 67-77). -/
def validate_workflow_metadata (state : DocumentProcessingState) : Option String :=
  match state.workflow_metadata with
  | none => some "Workflow metadata is required"
  | some workflow_meta =>
    if workflow_meta.completed_steps > workflow_meta.total_steps then
      some "Completed steps cannot exceed total steps"
    else if workflow_meta.error_count < 0 then
      some "Error count cannot be negative"
    else none

/-- The step → allowed-status table of _validate_processing_sequence
(src/state/validators.py lines 84-91). -/
def valid_sequences : List (String × List WorkflowStatus) :=
  [("awaiting_upload", [.pending]),
   ("validating", [.in_progress]),
   ("processing", [.in_progress]),
   ("reviewing", [.waiting_approval, .in_progress]),
   ("completed", [.completed]),
   ("failed", [.failed])]

/-- DocumentProcessingValidator._validate_processing_sequence
(src/state/validators.py lines 79-98). -/
def validate_processing_sequence (state : DocumentProcessingState) : Option String :=
  match dictGet valid_sequences state.current_step with
  | none => none
  | some valid_statuses =>
    if valid_statuses.contains state.overall_status then none
    else some ("Step \x27" ++ state.current_step ++ "\x27 incompatible with status \x27"
               ++ workflowStatusStr state.overall_status ++ "\x27")

/-- The allowed filename extensions (src/state/validators.py line 110). -/
def allowed_types : List String := [".pdf", ".docx", ".txt", ".md"]

/-- The configured maximum size, 50 MiB (src/state/validators.py line 105). -/
def max_size_bytes : Int := 50 * 1024 * 1024

/-- DocumentProcessingValidator._validate_file_constraints
(src/state/validators.py lines 100-112).  The size check raises first, so an
oversized document never reaches the extension check. -/
def validate_file_constraints (state : DocumentProcessingState) : Option String :=
  match state.current_document with
  | none => none
  | some current_doc =>
    if current_doc.size_bytes > max_size_bytes then
      some ("File size exceeds limit: " ++ toString current_doc.size_bytes ++ " bytes")
    else if !(allowed_types.any (fun ext => strEndsWith current_doc.filename ext)) then
      some ("Unsupported file type: " ++ current_doc.file_type)
    else none

/-- DocumentProcessingValidator._validate_status_consistency
(src/state/validators.py lines 114-125). -/
def validate_status_consistency (state : DocumentProcessingState) : Option String :=
  if state.overall_status = .failed ∧ state.errors.length = 0 then
    some "Failed status requires error messages"
  else if state.overall_status = .completed then
    match state.workflow_metadata with
    | some workflow_meta =>
      if workflow_meta.completed_steps < workflow_meta.total_steps then
        some "Cannot complete workflow with incomplete steps"
      else none
    | none => none
  else none

/-- The rule dict of DocumentProcessingValidator.setup_rules
(src/state/validators.py lines 59-65), in insertion order. -/
def document_validation_rules : List (String × (DocumentProcessingState → Option String)) :=
  [("workflow_metadata_required", validate_workflow_metadata),
   ("document_processing_sequence", validate_processing_sequence),
   ("file_constraints", validate_file_constraints),
   ("status_consistency", validate_status_consistency)]

/-- ProjectManagementState (src/state/schemas.py lines 234-264), restricted
to the two fields _validate_task_dependencies reads. -/
structure ProjectManagementState where
  tasks : List (String × TaskInfo) := []
  task_dependencies : List (String × List String) := []
  deriving Repr, DecidableEq

/-- `dependencies.get(task_id, [])` (src/state/validators.py line 148). -/
def depsOf (dependencies : List (String × List String)) (task_id : String) : List String :=
  (dictGet dependencies task_id).getD []

/-- The recursive body of has_cycle (src/state/validators.py lines 144-156),
driven by explicit fuel.  The worklist is the dependency list currently being
iterated; entering an unvisited node pushes it on `visited` (threaded back,
like the shared mutable set) and on `stack` (passed down only: the source
removes the node again before returning False, so siblings observe the stack
unchanged).  Fuel only bounds recursion depth; every call consumes work from
the finite graph, and the callers pass fuel exceeding the total node and edge
count, so the fuel-exhausted branch is unreachable on the inputs used. -/
def cycleSearch (dependencies : List (String × List String)) :
    Nat → List String → List String → List String → Bool × List String
  | 0, _, visited, _ => (false, visited)
  | _ + 1, [], visited, _ => (false, visited)
  | fuel + 1, dep_task :: rest, visited, stack =>
    if visited.contains dep_task then
      if stack.contains dep_task then (true, visited)
      else cycleSearch dependencies fuel rest visited stack
    else
      match cycleSearch dependencies fuel (depsOf dependencies dep_task)
              (dep_task :: visited) (dep_task :: stack) with
      | (true, visited1) => (true, visited1)
      | (false, visited1) => cycleSearch dependencies fuel rest visited1 stack

/-- The `for task_id in tasks` driver loop (src/state/validators.py lines
158-162): has_cycle(task_id, visited, set()) marks task_id visited, pushes it
on an empty recursion stack and walks its dependency list.  Returns the
task named by the raised violation, if any. -/
def findCycleTop (dependencies : List (String × List String)) (fuel : Nat) :
    List String → List String → Option String
  | [], _ => none
  | task_id :: rest, visited =>
    if visited.contains task_id then findCycleTop dependencies fuel rest visited
    else
      match cycleSearch dependencies fuel (depsOf dependencies task_id)
              (task_id :: visited) [task_id] with
      | (true, _) => some task_id
      | (false, visited1) => findCycleTop dependencies fuel rest visited1

/-- The reference checks after the cycle scan (src/state/validators.py lines
164-170). -/
def depRefCheck (taskKeys : List String) : List (String × List String) → Option String
  | [] => none
  | (task_id, deps) :: rest =>
    if !(taskKeys.contains task_id) then
      some ("Dependency reference to non-existent task: " ++ task_id)
    else
      match deps.find? (fun dep_id => !(taskKeys.contains dep_id)) with
      | some dep_id => some ("Task " ++ task_id ++ " depends on non-existent task: " ++ dep_id)
      | none => depRefCheck taskKeys rest

/-- ProjectManagementValidator._validate_task_dependencies
(src/state/validators.py lines 138-170): depth-first cycle scan over the
task keys, then referential-integrity checks.  The fuel handed to the DFS
exceeds the number of tasks plus the total length of all dependency lists. -/
def validate_task_dependencies (state : ProjectManagementState) : Option String :=
  let taskKeys := state.tasks.map Prod.fst
  let fuel := state.task_dependencies.foldl (fun a p => a + p.2.length + 1) (taskKeys.length + 1)
  match findCycleTop state.task_dependencies fuel taskKeys [] with
  | some task_id => some ("Circular dependency detected involving task " ++ task_id)
  | none => depRefCheck taskKeys state.task_dependencies

/-! ## Helper lemmas -/

theorem pyOrInt_zero (x : Int) : pyOrInt x 0 = x := by
  unfold pyOrInt
  split
  · omega
  · rfl

theorem pyOrStr_absorb (x y : String) : pyOrStr x (pyOrStr x y) = pyOrStr x y := by
  unfold pyOrStr
  by_cases h : x = "" <;> simp [h]

theorem pyOrInt_absorb (x y : Int) : pyOrInt x (pyOrInt x y) = pyOrInt x y := by
  unfold pyOrInt
  by_cases h : x = 0 <;> simp [h]

theorem pyOrOptStr_absorb (x y : Option String) :
    pyOrOptStr x (pyOrOptStr x y) = pyOrOptStr x y := by
  cases x with
  | none => rfl
  | some s =>
    unfold pyOrOptStr
    by_cases h : s = "" <;> simp [h]

theorem runValidationRules_eq_filterMap {σ : Type} (s : σ)
    (rules : List (String × (σ → Option String))) :
    runValidationRules s rules
      = rules.filterMap (fun p => (p.2 s).map (fun m => p.1 ++ ": " ++ m)) := by
  induction rules with
  | nil => rfl
  | cons p rest ih =>
    obtain ⟨n, r⟩ := p
    cases h : r s <;> simp [runValidationRules, h, ih]

theorem dictGet_dictSet_self {α : Type} (l : List (String × α)) (k : String) (v : α) :
    dictGet (dictSet l k v) k = some v := by
  induction l with
  | nil => simp [dictSet, dictGet]
  | cons p rest ih =>
    obtain ⟨k1, v1⟩ := p
    by_cases h : k1 = k <;> simp [dictSet, dictGet, h, ih]

theorem dictGet_dictSet_ne {α : Type} (l : List (String × α)) (k k2 : String) (v : α)
    (h : k2 ≠ k) : dictGet (dictSet l k v) k2 = dictGet l k2 := by
  induction l with
  | nil => simp [dictSet, dictGet, Ne.symm h]
  | cons p rest ih =>
    obtain ⟨k1, v1⟩ := p
    by_cases h1 : k1 = k
    · subst h1
      simp [dictSet, dictGet, Ne.symm h]
    · simp [dictSet, dictGet, h1, ih]

theorem dictGet_append_left {α : Type} (l l2 : List (String × α)) (k : String) (v : α)
    (h : dictGet l k = some v) : dictGet (l ++ l2) k = some v := by
  induction l with
  | nil => simp [dictGet] at h
  | cons p rest ih =>
    obtain ⟨k1, v1⟩ := p
    by_cases h1 : k1 = k
    · simpa [dictGet, h1] using h
    · simp [dictGet, h1] at h ⊢
      exact ih h

theorem updateTasksLoop_preserves (now : String) (P : TaskInfo → Prop)
    (hP : ∀ e n, P e → P (mergeTaskInfo now e n)) :
    ∀ (N acc : List (String × TaskInfo)) (k : String) (v : TaskInfo),
      dictGet acc k = some v → P v →
      ∃ w, dictGet (updateTasksLoop now acc N) k = some w ∧ P w := by
  intro N
  induction N with
  | nil =>
    intro acc k v h hv
    exact ⟨v, h, hv⟩
  | cons pair rest ih =>
    intro acc k v h hv
    obtain ⟨tid, nt⟩ := pair
    cases hg : dictGet acc tid with
    | some et =>
      by_cases hk : tid = k
      · subst hk
        rw [h] at hg
        injection hg with hg
        subst hg
        have := ih (dictSet acc tid (mergeTaskInfo now v nt)) tid (mergeTaskInfo now v nt)
          (dictGet_dictSet_self acc tid _) (hP v nt hv)
        simpa [updateTasksLoop, h] using this
      · have hget : dictGet (dictSet acc tid (mergeTaskInfo now et nt)) k = some v := by
          rw [dictGet_dictSet_ne acc tid k _ (fun e => hk e.symm)]
          exact h
        have := ih (dictSet acc tid (mergeTaskInfo now et nt)) k v hget hv
        simpa [updateTasksLoop, hg] using this
    | none =>
      have := ih (acc ++ [(tid, nt)]) k v (dictGet_append_left acc [(tid, nt)] k v h) hv
      simpa [updateTasksLoop, hg] using this

/-! ## Concrete example values used by counterexamples and witnesses -/

/-- The email action dict built by send_email_with_approval. -/
def exEmailAction : PendingAction :=
  { type := some "send_email", recipient := some "bob@corp.com", risk_level := some "medium" }

/-- The transfer action dict of the spec scenario: amount 2000 to "vendor". -/
def exTransferAction : PendingAction :=
  { type := some "transfer_money", amount := some 2000,
    recipient := some "vendor", risk_level := some "high" }

/-- A state that already has a pending action outstanding. -/
def exSuspendedState : ApprovalState :=
  { pending_action := some exEmailAction
    workflow_status := "waiting_approval"
    current_step := "approval_required_send_email"
    user_id := some "u1" }

/-- A state suspended on the transfer action of the spec scenario. -/
def exTransferSuspendedState : ApprovalState :=
  { pending_action := some exTransferAction
    workflow_status := "waiting_approval"
    current_step := "approval_required_transfer_money"
    user_id := some "u1" }

/-- Metadata with nonzero cumulative counters. -/
def wmEx : WorkflowMetadata :=
  { workflow_id := "w1", workflow_type := "document_processing", started_at := "s0",
    updated_at := "s0", current_step := "processing", total_steps := 5,
    completed_steps := 1, error_count := 1, retry_count := 1 }

/-- An incoming metadata update with higher progress. -/
def wmEx2 : WorkflowMetadata :=
  { workflow_id := "w1", workflow_type := "document_processing", started_at := "s1",
    updated_at := "s1", current_step := "reviewing", total_steps := 5,
    completed_steps := 4, error_count := 0, retry_count := 0 }

/-- The merge of wmEx with wmEx2 at time "t". -/
def wmMergedEx : Option WorkflowMetadata :=
  merge_workflow_metadata "t" (some wmEx) (some wmEx2)

/-- A minimal task record (status todo, priority low: the field defaults). -/
def mkTask (id : String) : TaskInfo :=
  { id := id, title := id, description := "", status := .todo, priority := .low,
    created_at := "t0", updated_at := "t0" }

/-- An existing task whose status and priority differ from the defaults. -/
def exTaskExisting : TaskInfo :=
  { mkTask "A" with status := .in_progress, priority := .high }

/-- An incoming update carrying the default status todo and priority low. -/
def exTaskIncoming : TaskInfo := mkTask "A"

/-- Tasks {A→B, B→C, C→A}: a dependency cycle. -/
def pmCyclic : ProjectManagementState :=
  { tasks := [("A", mkTask "A"), ("B", mkTask "B"), ("C", mkTask "C")]
    task_dependencies := [("A", ["B"]), ("B", ["C"]), ("C", ["A"])] }

/-- Tasks {A→B, B→C}: no cycle. -/
def pmAcyclic : ProjectManagementState :=
  { tasks := [("A", mkTask "A"), ("B", mkTask "B"), ("C", mkTask "C")]
    task_dependencies := [("A", ["B"]), ("B", ["C"])] }

/-- A 60 MiB document with a disallowed extension. -/
def docOversizedExe : DocumentInfo :=
  { id := "d1", filename := "payload.exe", file_type := "exe",
    size_bytes := 60 * 1024 * 1024 }

/-- A 60 MiB pdf document. -/
def docOversizedPdf : DocumentInfo :=
  { id := "d2", filename := "big.pdf", file_type := "pdf",
    size_bytes := 60 * 1024 * 1024 }

/-- A 10 MiB pdf document. -/
def docSmallPdf : DocumentInfo :=
  { id := "d3", filename := "report.pdf", file_type := "pdf",
    size_bytes := 10 * 1024 * 1024 }

/-- A small document with a disallowed extension. -/
def docSmallExe : DocumentInfo :=
  { id := "d4", filename := "tool.exe", file_type := "exe", size_bytes := 5 }

/-- A document state violating two independent rules: metadata missing and
a disallowed file type. -/
def docStateTwoViolations : DocumentProcessingState :=
  { workflow_metadata := none
    current_document := some docSmallExe }

/-! ## Claim theorems -/

/-- C1 (counterexample): the claim says that when a pending action is already
outstanding, add_pending_action fails instead of recording the new action.
On a state suspended on exEmailAction, add_pending_action with
exTransferAction succeeds and records the new action (the function has no
failure outcome at all): the returned update carries the new pending action
and status waiting_approval. -/
theorem add_pending_action_records_despite_pending :
    exSuspendedState.pending_action = some exEmailAction
    ∧ exTransferAction ≠ exEmailAction
    ∧ add_pending_action exSuspendedState exTransferAction =
        { pending_action := some exTransferAction
          workflow_status := "waiting_approval"
          current_step := "approval_required_transfer_money" } := by
  refine ⟨rfl, by decide, rfl⟩

/-- C1 (amended): add_pending_action never fails and never inspects the
state: for every state — including one that already has a pending action —
it returns an update that records the new action, sets status to
waiting_approval and sets current_step to approval_required_<type>.  The
at-most-one-outstanding rule is not enforced by the code. -/
theorem add_pending_action_unconditional (s : ApprovalState) (a : PendingAction) :
    add_pending_action s a =
      { pending_action := some a
        workflow_status := "waiting_approval"
        current_step := "approval_required_" ++ a.type.getD "unknown" } := rfl

/-- C2: record_approval_decision fails (raises, modelled as Except.error)
exactly when no pending action exists; otherwise it appends exactly one
ApprovalRecord capturing the pending-action snapshot and the boolean
decision, clears the pending action, and sets the status to active when
approved and blocked when rejected. -/
theorem record_approval_decision_spec (s : ApprovalState) (approved : Bool) (notes : String) :
    (s.pending_action = none →
      record_approval_decision s approved notes = .error "No pending action to approve")
    ∧ (∀ pa, s.pending_action = some pa →
        record_approval_decision s approved notes =
          .ok { approval_history := s.approval_history ++
                  [{ action := pa, approved := approved, timestamp := "now",
                     notes := notes, approver := s.user_id.getD "unknown" }]
                pending_action := none
                workflow_status := if approved then "active" else "blocked"
                current_step := if approved then "approved" else "rejected" })
    ∧ (∀ pa, s.pending_action = some pa →
        ∃ u, record_approval_decision s approved notes = .ok u
          ∧ u.approval_history.length = s.approval_history.length + 1
          ∧ u.pending_action = none
          ∧ u.workflow_status = (if approved then "active" else "blocked")) := by
  refine ⟨fun h => ?_, fun pa h => ?_, fun pa h => ?_⟩
  · simp [record_approval_decision, h]
  · simp [record_approval_decision, h]
  · refine ⟨{ approval_history := s.approval_history ++
                [{ action := pa, approved := approved, timestamp := "now",
                   notes := notes, approver := s.user_id.getD "unknown" }]
              pending_action := none
              workflow_status := if approved then "active" else "blocked"
              current_step := if approved then "approved" else "rejected" },
            by simp [record_approval_decision, h], by simp, rfl, rfl⟩

/-- C2 (witness): the spec scenario — resolving the suspended transfer-funds
action with {approved: false, notes: "too large"} yields status blocked,
clears the pending action and appends exactly one record with
approved = false. -/
theorem record_approval_decision_spec_witness :
    record_approval_decision exTransferSuspendedState false "too large" =
      .ok { approval_history :=
              [{ action := exTransferAction, approved := false, timestamp := "now",
                 notes := "too large", approver := "u1" }]
            pending_action := none
            workflow_status := "blocked"
            current_step := "rejected" } := by
  have h := (record_approval_decision_spec exTransferSuspendedState false "too large").2.1
    exTransferAction rfl
  exact h.trans (by rfl)

/-- C3 (counterexample): merge_workflow_metadata is not idempotent under a
repeated identical incoming update: with an incoming error_count of 1, the
second identical merge raises error_count again (1+1+1 = 3 against 1+1 = 2). -/
theorem merge_workflow_metadata_not_idempotent :
    merge_workflow_metadata "t" (merge_workflow_metadata "t" (some wmEx) (some wmEx)) (some wmEx)
      ≠ merge_workflow_metadata "t" (some wmEx) (some wmEx) := by
  decide

/-- C3 (amended): idempotence under a repeated identical incoming update
fails for the two cited reducers.  merge_workflow_metadata repeats the sums
of error_count and retry_count while every other field is stable, and
append_to_processing_log appends the (timestamped) incoming entries again,
so the repeated merge differs whenever the incoming update is nonempty. -/
theorem merge_metadata_and_log_repeat_behavior (now : String) (e i : WorkflowMetadata)
    (l xs : List String) :
    (∃ m1 m2, merge_workflow_metadata now (some e) (some i) = some m1
      ∧ merge_workflow_metadata now (some m1) (some i) = some m2
      ∧ m2.error_count = m1.error_count + i.error_count
      ∧ m2.retry_count = m1.retry_count + i.retry_count
      ∧ m2.completed_steps = m1.completed_steps
      ∧ m2.current_step = m1.current_step
      ∧ m2.total_steps = m1.total_steps
      ∧ m2.timeout_at = m1.timeout_at
      ∧ m2.workflow_id = m1.workflow_id
      ∧ m2.workflow_type = m1.workflow_type
      ∧ m2.started_at = m1.started_at
      ∧ m2.updated_at = m1.updated_at)
    ∧ append_to_processing_log now (append_to_processing_log now l xs) xs
        = append_to_processing_log now l xs ++ xs.map (fun entry => "[" ++ now ++ "] " ++ entry)
    ∧ (xs ≠ [] → append_to_processing_log now (append_to_processing_log now l xs) xs
        ≠ append_to_processing_log now l xs) := by
  have hlog : append_to_processing_log now (append_to_processing_log now l xs) xs
      = append_to_processing_log now l xs ++ xs.map (fun entry => "[" ++ now ++ "] " ++ entry) := by
    by_cases h : xs = [] <;> simp [append_to_processing_log, h]
  refine ⟨?_, hlog, ?_⟩
  · refine ⟨_, _, rfl, rfl, ?_, ?_, ?_, ?_, ?_, ?_, rfl, rfl, rfl, rfl⟩
    all_goals
      simp [merge_workflow_metadata, pyOrInt_zero, pyOrStr_absorb, pyOrInt_absorb,
        pyOrOptStr_absorb, max_assoc]
  · intro hxs heq
    rw [hlog] at heq
    have hlen := congrArg List.length heq
    simp [List.length_append, List.length_map] at hlen
    exact hxs hlen

/-- C3 (witness): applied at wmEx and a one-entry log, with the nonemptiness
hypothesis discharged. -/
theorem merge_metadata_and_log_repeat_behavior_witness :
    append_to_processing_log "t" (append_to_processing_log "t" [] ["a"]) ["a"]
      ≠ append_to_processing_log "t" [] ["a"] := by
  exact (merge_metadata_and_log_repeat_behavior "t" wmEx wmEx [] ["a"]).2.2 (by decide)

/-- C4 (counterexample): absence is not a left identity for
append_to_processing_log: merging the incoming entry "entry" into an absent
(empty) log yields the timestamped entry, not the entry itself. -/
theorem append_log_absence_not_identity :
    append_to_processing_log "t" [] ["entry"] ≠ ["entry"] := by
  decide

/-- C4 (amended): absence is an identity for merge_user_profile and
merge_workflow_metadata on both sides, and for append_to_processing_log on
the incoming side only; with no existing log the reducer returns the
incoming entries stamped with the merge-time timestamp, which differs from
the incoming list itself whenever it is nonempty. -/
theorem absence_identity_for_merges (now : String) (x : Option UserProfile)
    (y : Option WorkflowMetadata) (l xs : List String) :
    merge_user_profile none x = x
    ∧ merge_user_profile x none = x
    ∧ merge_workflow_metadata now none y = y
    ∧ merge_workflow_metadata now y none = y
    ∧ append_to_processing_log now l [] = l
    ∧ append_to_processing_log now [] xs
        = xs.map (fun entry => "[" ++ now ++ "] " ++ entry) := by
  refine ⟨rfl, ?_, rfl, ?_, rfl, ?_⟩
  · cases x <;> rfl
  · cases y <;> rfl
  · by_cases h : xs = [] <;> simp [append_to_processing_log, h]

/-- C5: in merge_workflow_metadata the merged completed_steps is exactly the
maximum of the existing and incoming values, and therefore never smaller
than the existing value for any incoming update (including an absent one).
Applied step by step, this means completed_steps never decreases across any
sequence of merges. -/
theorem merge_completed_steps_monotone (now : String) (e n : WorkflowMetadata)
    (o : Option WorkflowMetadata) :
    (∀ m, merge_workflow_metadata now (some e) (some n) = some m →
      m.completed_steps = max e.completed_steps n.completed_steps)
    ∧ (∀ m, merge_workflow_metadata now (some e) o = some m →
      e.completed_steps ≤ m.completed_steps) := by
  constructor
  · intro m h
    injection h with h
    subst h
    simp [pyOrInt_zero]
  · intro m h
    cases o with
    | none =>
      injection h with h
      subst h
      exact le_rfl
    | some n1 =>
      injection h with h
      subst h
      simp [pyOrInt_zero, le_max_left]

/-- C5 (witness): merging wmEx (completed 1) with wmEx2 (completed 4) never
lowers the existing counter. -/
theorem merge_completed_steps_monotone_witness :
    wmEx.completed_steps ≤ ((wmMergedEx).getD wmEx).completed_steps := by
  exact (merge_completed_steps_monotone "t" wmEx wmEx2 (some wmEx2)).2
    ((wmMergedEx).getD wmEx) (by rfl)

/-- C6: a single call to WorkflowValidator.validate runs every named rule
even after one fails: the error list is exactly the name-prefixed message of
every failing rule, in rule order, and the result is valid exactly when no
rule reports a violation.  The call is a total function — no rule failure
propagates to the caller. -/
theorem validate_collects_all_violations {σ : Type}
    (rules : List (String × (σ → Option String))) (now : String) (s : σ) :
    (WorkflowValidator.validate rules now s).errors
      = rules.filterMap (fun p => (p.2 s).map (fun m => p.1 ++ ": " ++ m))
    ∧ ((WorkflowValidator.validate rules now s).valid = true ↔ ∀ p ∈ rules, p.2 s = none) := by
  have herr : (WorkflowValidator.validate rules now s).errors
      = rules.filterMap (fun p => (p.2 s).map (fun m => p.1 ++ ": " ++ m)) :=
    runValidationRules_eq_filterMap s rules
  refine ⟨herr, ?_⟩
  show (runValidationRules s rules).isEmpty = true ↔ _
  rw [List.isEmpty_iff, runValidationRules_eq_filterMap s rules, List.filterMap_eq_nil_iff]
  constructor
  · intro h p hp
    have := h p hp
    simpa using this
  · intro h p hp
    simp [h p hp]

/-- C6 (witness): on a document state violating both the metadata rule (rule
1 of 4) and the file-constraints rule (rule 3 of 4), validate reports both
named violations — the rules after the first failure still ran. -/
theorem validate_collects_all_violations_witness :
    (WorkflowValidator.validate document_validation_rules "t" docStateTwoViolations).errors
      = ["workflow_metadata_required: Workflow metadata is required",
         "file_constraints: Unsupported file type: exe"]
    ∧ (WorkflowValidator.validate document_validation_rules "t" docStateTwoViolations).valid
      = false := by
  have h := (validate_collects_all_violations document_validation_rules "t"
    docStateTwoViolations).1
  exact ⟨h.trans (by rfl), by rfl⟩

/-- C7: the dependency validator detects cycles by depth-first traversal:
on tasks {A→B, B→C, C→A} it reports a circular-dependency violation naming
task A (one of the involved tasks A, B, C), and on tasks {A→B, B→C} it
reports no violation. -/
theorem dependency_cycle_detection :
    (∃ t, t ∈ (["A", "B", "C"] : List String)
      ∧ validate_task_dependencies pmCyclic
          = some ("Circular dependency detected involving task " ++ t))
    ∧ validate_task_dependencies pmAcyclic = none := by
  exact ⟨⟨"A", by decide, by rfl⟩, by rfl⟩

/-- C8 (counterexample): an oversized document whose extension is also
outside the allowed set yields only the size diagnostic — the raise on the
size check aborts the rule before the extension check, so no file-type
diagnostic is produced for it, contradicting the claim that every
wrongly-typed current document yields one. -/
theorem oversized_bad_type_masks_file_type_diagnostic :
    validate_file_constraints { current_document := some docOversizedExe }
      = some "File size exceeds limit: 62914560 bytes"
    ∧ validate_file_constraints { current_document := some docOversizedExe }
      ≠ some ("Unsupported file type: " ++ docOversizedExe.file_type) := by
  exact ⟨by rfl, by decide⟩

/-- C8 (amended): the file-constraints rule rejects oversized and
wrongly-typed documents: any 60 MiB current document yields the size
diagnostic against the 50 MiB maximum, a 10 MiB document whose filename ends
in .pdf yields no diagnostic, and every current document *within the size
limit* whose filename extension is outside the allowed set
(.pdf, .docx, .txt, .md) yields the file-type diagnostic (an oversized
wrongly-typed document yields the size diagnostic instead). -/
theorem file_constraints_spec (s : DocumentProcessingState) (d : DocumentInfo) :
    (s.current_document = some d → d.size_bytes = 60 * 1024 * 1024 →
      validate_file_constraints s
        = some ("File size exceeds limit: " ++ toString d.size_bytes ++ " bytes"))
    ∧ (s.current_document = some d → d.size_bytes = 10 * 1024 * 1024 →
        strEndsWith d.filename ".pdf" = true →
        validate_file_constraints s = none)
    ∧ (s.current_document = some d → d.size_bytes ≤ max_size_bytes →
        allowed_types.any (fun ext => strEndsWith d.filename ext) = false →
        validate_file_constraints s = some ("Unsupported file type: " ++ d.file_type)) := by
  refine ⟨fun h hsize => ?_, fun h hsize hpdf => ?_, fun h hsize hext => ?_⟩
  · have hgt : d.size_bytes > max_size_bytes := by
      rw [hsize]
      decide
    simp [validate_file_constraints, h, hgt]
  · have hle : ¬(d.size_bytes > max_size_bytes) := by
      rw [hsize]
      decide
    have hany : allowed_types.any (fun ext => strEndsWith d.filename ext) = true :=
      List.any_eq_true.mpr ⟨".pdf", by decide, hpdf⟩
    simp [validate_file_constraints, h, hle, hany]
  · have hle : ¬(d.size_bytes > max_size_bytes) := by omega
    simp [validate_file_constraints, h, hle, hext]

/-- C8 (witness): the three scenarios at concrete documents: a 60 MiB pdf
yields the size diagnostic, a 10 MiB pdf yields none, and a small document
named tool.exe yields the file-type diagnostic. -/
theorem file_constraints_spec_witness :
    validate_file_constraints { current_document := some docOversizedPdf }
      = some "File size exceeds limit: 62914560 bytes"
    ∧ validate_file_constraints { current_document := some docSmallPdf } = none
    ∧ validate_file_constraints { current_document := some docSmallExe }
      = some "Unsupported file type: exe" := by
  refine ⟨?_, ?_, ?_⟩
  · have h := (file_constraints_spec { current_document := some docOversizedPdf }
      docOversizedPdf).1 rfl (by rfl)
    exact h.trans (by rfl)
  · exact (file_constraints_spec { current_document := some docSmallPdf }
      docSmallPdf).2.1 rfl (by rfl) (by rfl)
  · have h := (file_constraints_spec { current_document := some docSmallExe }
      docSmallExe).2.2 rfl (by decide) (by rfl)
    exact h.trans (by rfl)

/-- C9: risk classification is a pure function into {low, medium, high}; a
transfer_money action with amount above the 1000 threshold classifies as
high (both in assess_risk_level and in the inline rule of
transfer_money_with_approval), and every action whose kind is in the fixed
high-risk set classifies as at least medium (never low). -/
theorem risk_classification_spec (t : String) (p : ActionParams) (a : Int) :
    (assess_risk_level t p = "low" ∨ assess_risk_level t p = "medium"
      ∨ assess_risk_level t p = "high")
    ∧ (p.amount = some a → 1000 < a → assess_risk_level "transfer_money" p = "high")
    ∧ (high_risk_actions.contains t = true → assess_risk_level t p ≠ "low")
    ∧ (1000 < a → transfer_money_risk a = "high") := by
  refine ⟨?_, fun hp ha => ?_, fun ht => ?_, fun ha => ?_⟩
  · unfold assess_risk_level
    split
    · split
      · simp
      · split <;> simp
    · split <;> simp
  · simp [assess_risk_level, hp, ha]
    intro hmem
    exact absurd (by decide) hmem
  · unfold assess_risk_level
    rw [ht]
    simp only [if_true]
    split
    · decide
    · split
      · decide
      · decide
  · simp [transfer_money_risk, ha]

/-- C9 (witness): the spec scenario {kind: transfer_money, amount: 2000,
recipient: "vendor"} classifies as high, as does the inline tool rule at
amount 2000; and transfer_money, being in the high-risk set, is never low. -/
theorem risk_classification_spec_witness :
    assess_risk_level "transfer_money" { amount := some 2000, recipient := some "vendor" } = "high"
    ∧ transfer_money_risk 2000 = "high"
    ∧ assess_risk_level "transfer_money" { amount := some 2000, recipient := some "vendor" }
      ≠ "low" := by
  have h := risk_classification_spec "transfer_money"
    { amount := some 2000, recipient := some "vendor" } 2000
  exact ⟨h.2.1 rfl (by norm_num), h.2.2.2 (by norm_num), h.2.2.1 (by decide)⟩

/-- C10: in update_tasks_dict the per-task merge keeps the existing status
when the incoming status is the default todo and keeps the existing priority
when the incoming priority is the default low; consequently, once a task in
the dictionary has a status other than todo (or priority other than low), no
merge of any incoming task dictionary can move it back to the default. -/
theorem update_tasks_no_default_regression (now : String)
    (existing_task new_task : TaskInfo) (E N : List (String × TaskInfo))
    (k : String) (m : TaskInfo) :
    (new_task.status = TaskStatus.todo →
      (mergeTaskInfo now existing_task new_task).status = existing_task.status)
    ∧ (new_task.priority = Priority.low →
      (mergeTaskInfo now existing_task new_task).priority = existing_task.priority)
    ∧ (dictGet E k = some existing_task → existing_task.status ≠ TaskStatus.todo →
        dictGet (update_tasks_dict now E N) k = some m → m.status ≠ TaskStatus.todo)
    ∧ (dictGet E k = some existing_task → existing_task.priority ≠ Priority.low →
        dictGet (update_tasks_dict now E N) k = some m → m.priority ≠ Priority.low) := by
  have hstatus : ∀ e n : TaskInfo, e.status ≠ TaskStatus.todo →
      (mergeTaskInfo now e n).status ≠ TaskStatus.todo := by
    intro e n he
    simp only [mergeTaskInfo]
    split
    · assumption
    · exact he
  have hpriority : ∀ e n : TaskInfo, e.priority ≠ Priority.low →
      (mergeTaskInfo now e n).priority ≠ Priority.low := by
    intro e n he
    simp only [mergeTaskInfo]
    split
    · assumption
    · exact he
  have hdict : ∀ (P : TaskInfo → Prop), (∀ e n, P e → P (mergeTaskInfo now e n)) →
      dictGet E k = some existing_task → P existing_task →
      dictGet (update_tasks_dict now E N) k = some m → P m := by
    intro P hP hE hPe hres
    unfold update_tasks_dict at hres
    by_cases hEnil : E = []
    · subst hEnil
      simp [dictGet] at hE
    · rw [if_neg hEnil] at hres
      by_cases hNnil : N = []
      · rw [if_pos hNnil] at hres
        rw [hE] at hres
        injection hres with hres
        subst hres
        exact hPe
      · rw [if_neg hNnil] at hres
        obtain ⟨w, hw, hPw⟩ :=
          updateTasksLoop_preserves now P hP N E k existing_task hE hPe
        rw [hw] at hres
        injection hres with hres
        subst hres
        exact hPw
  refine ⟨fun h => ?_, fun h => ?_, ?_, ?_⟩
  · simp [mergeTaskInfo, h]
  · simp [mergeTaskInfo, h]
  · intro hE hst hres
    exact hdict (fun t => t.status ≠ TaskStatus.todo) hstatus hE hst hres
  · intro hE hpr hres
    exact hdict (fun t => t.priority ≠ Priority.low) hpriority hE hpr hres

/-- C10 (witness): an existing task with status in_progress and priority
high merged with an incoming update carrying the defaults todo/low keeps its
status and priority, through the full dictionary reducer. -/
theorem update_tasks_no_default_regression_witness :
    (mergeTaskInfo "t2" exTaskExisting exTaskIncoming).status ≠ TaskStatus.todo
    ∧ (mergeTaskInfo "t2" exTaskExisting exTaskIncoming).priority ≠ Priority.low := by
  have h := update_tasks_no_default_regression "t2" exTaskExisting exTaskIncoming
    [("A", exTaskExisting)] [("A", exTaskIncoming)] "A"
    (mergeTaskInfo "t2" exTaskExisting exTaskIncoming)
  exact ⟨h.2.2.1 (by rfl) (by decide) (by rfl), h.2.2.2 (by rfl) (by decide) (by rfl)⟩
